import Mathlib

/-!
Verification of the feature-reconciliation logic of the readmission-prediction
repository.

The core under study is `build_input_row` in `app.py`: starting from the
training-time schema artifacts (`columns`, an ordered list of column names, and
`dtypes`, a mapping from column name to a dtype string such as "object" or
"int64"), it builds a one-row pandas DataFrame, overlays the user-observed
values, fills remaining missing cells with kind-conditioned defaults, reselects
the columns in schema order (`df = df[columns]`) and coerces each column to its
target dtype (`astype(str)` for categorical columns, `pd.to_numeric(...,
errors="coerce").fillna(0).astype(...)` for numeric ones).

Embedding choices:
 * A cell value (`PyVal`) is a string, an integer, or NaN.  The numeric columns
   of the training data are integer-typed (`int64` counts), so numbers are
   modelled as `Int`; `pd.to_numeric(...).astype(target)` on a decimal string
   is modelled with truncation toward zero, as NumPy's integer cast does.
 * A one-row DataFrame is an association list from column name to value
   (`Row`); `df.loc[0, k] = v` is `setCol`, which overwrites an existing
   column or appends a fresh one at the end, exactly as pandas does.
 * The dict comprehension `{col: [np.nan] for col in columns}` deduplicates
   column names; only membership in the deduplicated list matters downstream,
   so `List.dedup` is used for it.
 * `df[columns]` (label-based reselection) raises a KeyError in pandas when a
   requested column is absent; `reselectE` models that fallible operation and
   `reselect` is its total counterpart (the missing-column case is proved
   unreachable in this pipeline).
 * The coercion loop of step 3 has error paths of its own: when a schema label
   is duplicated, `df[col]` is a two-column DataFrame and `pd.to_numeric`
   raises a TypeError on the two-dimensional input, and `astype("int64")`
   raises a ValueError on a non-finite value (an observed "inf"-like string).
   `coerceValE`/`coerceEntriesE` model these paths and `build_input_rowPandas`
   is the resulting fully fallible pipeline; the total `coerceVal`/`coerceRow`
   describe the successful path (duplicate-free labels, finite values), which
   is the only path the confirmed claims quantify over.
-/

/-- A pandas cell value: a Python string, an integer, or the missing-value
sentinel `np.nan`. -/
inductive PyVal where
  | vStr : String → PyVal
  | vNum : Int → PyVal
  | vNaN : PyVal
deriving DecidableEq, Repr

/-- `pd.isna` restricted to the values that occur in this pipeline. -/
def isna : PyVal → Bool
  | .vNaN => true
  | _ => false

/-- Python `str(...)` on a cell value (`df[col].astype(str)` renders NaN as
"nan"). -/
def pyStr : PyVal → String
  | .vStr s => s
  | .vNum n => toString n
  | .vNaN => "nan"

/-- Value of a digit run, most significant first. -/
def digitsToNat (l : List Char) : Nat :=
  l.foldl (fun acc c => acc * 10 + (c.toNat - 48)) 0

/-- `pd.to_numeric(s, errors="coerce")` followed by the integer cast: accepts
an optional sign, an integer part and an optional fractional part, truncating
toward zero; any other string yields `none` (pandas yields NaN there).
Deliberately narrower than the pandas parser: scientific notation,
whitespace-padded numbers and infinity spellings are not recognized here and
so fall to the default.  Strings this parser accepts are a subset of those
pandas accepts, so a `parseNum`-failure hypothesis covers every string pandas
actually fails to coerce; infinity spellings, which pandas parses but which
then make the integer cast raise, are tracked separately by `isInfStr`. -/
def parseNum (s : String) : Option Int :=
  let cs := s.toList
  let sgn : Bool × List Char :=
    match cs with
    | '-' :: r => (true, r)
    | '+' :: r => (false, r)
    | r => (false, r)
  let intPart := sgn.2.takeWhile Char.isDigit
  let rest := sgn.2.dropWhile Char.isDigit
  let ok : Bool :=
    match rest with
    | [] => !intPart.isEmpty
    | '.' :: frac => (!intPart.isEmpty || !frac.isEmpty) && frac.all Char.isDigit
    | _ => false
  if ok then
    let n : Int := Int.ofNat (digitsToNat intPart)
    some (if sgn.1 then -n else n)
  else none

/-- `pd.to_numeric(v, errors="coerce").fillna(0)` with the final integer cast:
numbers pass through, parseable strings are converted, anything else (garbage
strings, NaN) becomes the numeric default 0. -/
def toNumCoerce : PyVal → Int
  | .vNum n => n
  | .vStr s => (parseNum s).getD 0
  | .vNaN => 0

/-- A one-row DataFrame: ordered columns, each with a value. -/
abbrev Row := List (String × PyVal)

/-- First-match association lookup (how pandas resolves a unique column
label, and how Python's `dict.get` behaves on the dtypes dict). -/
def alookup {β : Type} : List (String × β) → String → Option β
  | [], _ => none
  | p :: rest, c => if p.1 = c then some p.2 else alookup rest c

/-- Last-match association lookup: the value left in a cell after a sequence
of writes, the later writes overwriting the earlier ones. -/
def alookupLast {β : Type} : List (String × β) → String → Option β
  | [], _ => none
  | p :: rest, c =>
    match alookupLast rest c with
    | some v => some v
    | none => if p.1 = c then some p.2 else none

/-- `df.loc[0, k] = v`: overwrite column `k` if present, otherwise append it
as a new column at the end of the row. -/
def setCol (r : Row) (k : String) (v : PyVal) : Row :=
  if r.any (fun p => p.1 = k) then
    r.map (fun p => if p.1 = k then (p.1, v) else p)
  else r ++ [(k, v)]

/-- `pd.DataFrame({col: [np.nan] for col in columns})`: one row, one column
per distinct schema name, every cell NaN. -/
def initRow (columns : List String) : Row :=
  columns.dedup.map (fun c => (c, PyVal.vNaN))

/-- Apply a sequence of `df.loc[0, k] = v` writes (the user-input overlay of
`build_input_row`, step 1). -/
def overlay (o : List (String × PyVal)) (r : Row) : Row :=
  o.foldl (fun acc p => setCol acc p.1 p.2) r

/-- The hard-coded categorical fallback of `build_input_row`:
'Caucasian' for race, 'Female' for gender, 'None' otherwise. -/
def catDefault (col : String) : String :=
  if col = "race" then "Caucasian"
  else if col = "gender" then "Female"
  else "None"

/-- The kind-conditioned default of step 2: the categorical sentinel when
`dtypes.get(col) == "object"`, the numeric default 0 otherwise. -/
def defaultFor (dtypes : List (String × String)) (col : String) : PyVal :=
  if alookup dtypes col = some "object" then .vStr (catDefault col)
  else .vNum 0

/-- Step 2 of `build_input_row`: for every schema column whose cell is NaN,
substitute the kind-conditioned default. -/
def fillDefaults (columns : List String) (dtypes : List (String × String))
    (r : Row) : Row :=
  r.map (fun p =>
    (p.1, if p.1 ∈ columns ∧ isna p.2 then defaultFor dtypes p.1 else p.2))

/-- `dtypes.get(col, 'object')` as used in step 3. -/
def targetDtype (dtypes : List (String × String)) (col : String) : String :=
  (alookup dtypes col).getD "object"

/-- Step 3's per-column coercion: `astype(str)` for target dtype 'object',
`pd.to_numeric(..., errors="coerce").fillna(0).astype(...)` otherwise. -/
def coerceVal (dtypes : List (String × String)) (col : String) (v : PyVal) :
    PyVal :=
  if targetDtype dtypes col = "object" then .vStr (pyStr v)
  else .vNum (toNumCoerce v)

/-- Coerce every column of the row to its target dtype: the successful path
of the coercion loop, as a total per-entry map.  It is faithful when the
label list is duplicate-free and no numeric cell holds an infinity spelling;
the loop's own error paths (duplicate-label TypeError, non-finite-to-integer
ValueError) are modelled by `coerceValE`/`coerceEntriesE` below. -/
def coerceRow (dtypes : List (String × String)) (r : Row) : Row :=
  r.map (fun p => (p.1, coerceVal dtypes p.1 p.2))

/-- `df = df[columns]`: reselect the columns in schema order (total variant;
a missing label is rendered as NaN, a case proved unreachable below). -/
def reselect (columns : List String) (r : Row) : Row :=
  columns.map (fun c => (c, (alookup r c).getD PyVal.vNaN))

/-- `df = df[columns]` as the fallible pandas operation it is: a requested
label absent from the frame raises a KeyError, modelled as `Except.error`. -/
def reselectE : List String → Row → Except String Row
  | [], _ => .ok []
  | c :: rest, r =>
    match alookup r c, reselectE rest r with
    | some v, .ok t => .ok ((c, v) :: t)
    | none, _ => .error c
    | some _, .error e => .error e

/-- `build_input_row` (app.py, lines 87-143): initialize a NaN row over the
schema, overlay the observed writes, fill the remaining NaN cells with
kind-conditioned defaults, reselect in schema order and coerce dtypes. -/
def build_input_row (columns : List String) (dtypes : List (String × String))
    (observed : List (String × PyVal)) : Row :=
  coerceRow dtypes
    (reselect columns
      (fillDefaults columns dtypes (overlay observed (initRow columns))))

/-- `build_input_row` with only the reselection step kept fallible (the
KeyError of `df = df[columns]`); the coercion step here is the total
successful-path `coerceRow`.  The pipeline with the coercion step's own
error paths also modelled is `build_input_rowPandas` below. -/
def build_input_rowE (columns : List String)
    (dtypes : List (String × String)) (observed : List (String × PyVal)) :
    Except String Row :=
  (reselectE columns
      (fillDefaults columns dtypes (overlay observed (initRow columns)))).map
    (coerceRow dtypes)

/-- Strip leading and trailing spaces from a character list. -/
def stripSpaces (l : List Char) : List Char :=
  ((l.dropWhile (· == ' ')).reverse.dropWhile (· == ' ')).reverse

/-- ASCII lower-casing of one character. -/
def lowerChar (c : Char) : Char :=
  if 'A' ≤ c ∧ c ≤ 'Z' then Char.ofNat (c.toNat + 32) else c

/-- The infinity spellings `pd.to_numeric` parses to a non-finite float
(case-insensitive, optionally signed, optionally space-padded).  Such a
value survives `fillna(0)` and then makes `astype("int64")` raise
"Cannot convert non-finite values to integer". -/
def isInfStr (s : String) : Bool :=
  let t := (stripSpaces s.toList).map lowerChar
  t == ['i', 'n', 'f'] || t == ['+', 'i', 'n', 'f'] ||
  t == ['-', 'i', 'n', 'f'] || t == "infinity".toList ||
  t == "+infinity".toList || t == "-infinity".toList

/-- Whether a dtype string denotes an integer dtype (whose `astype` rejects
non-finite values). -/
def isIntDtype (t : String) : Bool :=
  t.startsWith "int" || t.startsWith "uint"

/-- The per-cell coercion with its error path: on a numeric target dtype, a
string that parses to a non-finite float passes `pd.to_numeric`, survives
`fillna(0)` and makes the integer `astype` raise a ValueError.  (For a
non-integer numeric dtype the non-finite value would be kept; the training
data has only int64 numeric columns, and the `Int`-valued model then falls
back to the parse default.) -/
def coerceValE (dtypes : List (String × String)) (col : String) (v : PyVal) :
    Except String PyVal :=
  if targetDtype dtypes col = "object" then .ok (.vStr (pyStr v))
  else
    match v with
    | .vStr s =>
      if isInfStr s && isIntDtype (targetDtype dtypes col) then
        .error ("ValueError: cannot convert non-finite values to integer: "
          ++ col)
      else .ok (.vNum (toNumCoerce (.vStr s)))
    | .vNum n => .ok (.vNum n)
    | .vNaN => .ok (.vNum 0)

/-- The coercion loop `for col in df.columns` with its error paths: a label
occurring more than once makes `df[col]` a two-column DataFrame, which
`pd.to_numeric` rejects with a TypeError (while `astype(str)` applies
entrywise and succeeds); otherwise each cell is coerced by `coerceValE`,
failing at the first raising column. -/
def coerceEntriesE (dtypes : List (String × String)) (labels : List String) :
    Row → Except String Row
  | [] => .ok []
  | p :: rest =>
    if 2 ≤ labels.count p.1 ∧ targetDtype dtypes p.1 ≠ "object" then
      .error ("TypeError: cannot coerce a two-dimensional selection: " ++ p.1)
    else
      match coerceValE dtypes p.1 p.2, coerceEntriesE dtypes labels rest with
      | .ok w, .ok t => .ok ((p.1, w) :: t)
      | .error e, _ => .error e
      | .ok _, .error e => .error e

/-- The coercion loop over a whole frame: the labels it iterates over are
the frame's own column labels. -/
def coerceRowE (dtypes : List (String × String)) (r : Row) :
    Except String Row :=
  coerceEntriesE dtypes (r.map Prod.fst) r

/-- `build_input_row` with every pandas error path modelled: the KeyError of
the reselection and the TypeError/ValueError of the coercion loop. -/
def build_input_rowPandas (columns : List String)
    (dtypes : List (String × String)) (observed : List (String × PyVal)) :
    Except String Row :=
  match reselectE columns
      (fillDefaults columns dtypes (overlay observed (initRow columns))) with
  | .error e => .error e
  | .ok r => coerceRowE dtypes r

/-- The concrete write sequence the app performs (app.py lines 100-111): the
four essential fields unconditionally, the three extra categorical fields only
when the schema mentions them. -/
def app_observed (columns : List String)
    (age tih nlp nm race gender a1c : PyVal) : List (String × PyVal) :=
  [("age", age), ("time_in_hospital", tih), ("num_lab_procedures", nlp),
    ("num_medications", nm)]
  ++ (if "race" ∈ columns then [("race", race)] else [])
  ++ (if "gender" ∈ columns then [("gender", gender)] else [])
  ++ (if "A1Cresult" ∈ columns then [("A1Cresult", a1c)] else [])

/-- The value a schema column holds just before the coercion step: the last
observed write if there is one and it is not NaN, the kind-conditioned
default otherwise. -/
def pointVal (dtypes : List (String × String)) (o : List (String × PyVal))
    (c : String) : PyVal :=
  let u := (alookupLast o c).getD PyVal.vNaN
  if isna u then defaultFor dtypes c else u

/-- Outcome of the module-level artifact loading (app.py, lines 12-21): either
all three artifacts loaded and the app is ready, or `st.stop()` halted the
script with an error message before any reconciliation could run. -/
inductive Startup where
  | ready : List String → List (String × String) → Startup
  | halted : String → Startup
deriving Repr

/-- The try/except block around the three `joblib.load` calls: the loads run
in order (model, columns, dtypes); the first failure reaches the except
branch, which shows the message and calls `st.stop()`.  The fitted pipeline
object itself is not modelled (it is an external collaborator), only whether
its load succeeds. -/
def load_artifacts (model : Except String Unit)
    (cols : Except String (List String))
    (dts : Except String (List (String × String))) : Startup :=
  match model with
  | .error e => .halted e
  | .ok _ =>
    match cols with
    | .error e => .halted e
    | .ok cs =>
      match dts with
      | .error e => .halted e
      | .ok ds => .ready cs ds

/-- A prediction request: possible only when startup succeeded, in which case
the reconciled record is built from the loaded schema artifacts; a halted
process produces nothing. -/
def app_predict (s : Startup) (o : List (String × PyVal)) : Option Row :=
  match s with
  | .halted _ => none
  | .ready cs ds => some (build_input_row cs ds o)

/-- `df = df[df["readmitted"] != "NO"]` (training.py, line 16): drop every
row whose readmitted value is "NO".  A row is its readmitted value paired
with its remaining fields, which the label logic never inspects. -/
def keep_rows {β : Type} (rows : List (String × β)) : List (String × β) :=
  rows.filter (fun r => r.1 != "NO")

/-- The lambda of training.py, line 17: `1 if x == "<30" else 0`. -/
def readmitted_flag (x : String) : Nat :=
  if x = "<30" then 1 else 0

/-- `df["readmitted_flag"] = df["readmitted"].apply(...)` after the filter:
each kept row paired with its binary label. -/
def label_rows {β : Type} (rows : List (String × β)) :
    List ((String × β) × Nat) :=
  (keep_rows rows).map (fun r => (r, readmitted_flag r.1))

/-! ### Association-list lemmas -/

theorem alookup_map_graph {β : Type} (f : String → β) (l : List String)
    (c : String) :
    alookup (l.map (fun x => (x, f x))) c = if c ∈ l then some (f c) else none := by
  induction l with
  | nil => simp [alookup]
  | cons a t ih =>
    by_cases h : a = c
    · subst h; simp [alookup]
    · simp [alookup, h, ih, Ne.symm h]

theorem alookupLast_map_graph {β : Type} (f : String → β) (l : List String)
    (c : String) :
    alookupLast (l.map (fun x => (x, f x))) c =
      if c ∈ l then some (f c) else none := by
  induction l with
  | nil => simp [alookupLast]
  | cons a t ih =>
    show (match alookupLast (t.map fun x => (x, f x)) c with
      | some v => some v
      | none => if a = c then some (f a) else none) = _
    rw [ih]
    by_cases ht : c ∈ t
    · simp [ht]
    · by_cases h : a = c
      · subst h; simp [ht]
      · simp [ht, h, Ne.symm h]

theorem alookup_eq_none {β : Type} (l : List (String × β)) (c : String)
    (h : c ∉ l.map Prod.fst) : alookup l c = none := by
  induction l with
  | nil => rfl
  | cons p t ih =>
    simp only [List.map_cons, List.mem_cons] at h
    push_neg at h
    simp [alookup, Ne.symm h.1, ih h.2]

theorem alookupLast_eq_none {β : Type} (l : List (String × β)) (c : String)
    (h : c ∉ l.map Prod.fst) : alookupLast l c = none := by
  induction l with
  | nil => rfl
  | cons p t ih =>
    simp only [List.map_cons, List.mem_cons] at h
    push_neg at h
    show (match alookupLast t c with
      | some v => some v
      | none => if p.1 = c then some p.2 else none) = none
    rw [ih h.2]
    simp [Ne.symm h.1]

theorem alookup_append {β : Type} (l₁ l₂ : List (String × β)) (c : String) :
    alookup (l₁ ++ l₂) c =
      match alookup l₁ c with
      | some v => some v
      | none => alookup l₂ c := by
  induction l₁ with
  | nil => simp [alookup]
  | cons p t ih =>
    by_cases h : p.1 = c <;> simp [alookup, h, ih]

/-! ### Lemmas about the pandas write `setCol` -/

theorem alookup_replace_of_ne (r : Row) (k : String) (v : PyVal) (c : String)
    (h : k ≠ c) :
    alookup (r.map (fun p => if p.1 = k then (p.1, v) else p)) c =
      alookup r c := by
  induction r with
  | nil => rfl
  | cons p t ih =>
    by_cases hp : p.1 = k
    · have hpc : ¬ p.1 = c := by rw [hp]; exact h
      simp [alookup, hp, hpc, ih, h]
    · by_cases hc : p.1 = c
      · have hck : ¬ c = k := by rw [← hc]; exact hp
        simp [alookup, hp, hc, hck]
      · simp [alookup, hp, hc, ih]

theorem alookup_replace_self (r : Row) (k : String) (v : PyVal)
    (h : r.any (fun p => p.1 = k) = true) :
    alookup (r.map (fun p => if p.1 = k then (p.1, v) else p)) k = some v := by
  induction r with
  | nil => simp at h
  | cons p t ih =>
    by_cases hp : p.1 = k
    · simp [alookup, hp]
    · simp only [List.any_cons, Bool.or_eq_true, decide_eq_true_eq] at h
      rcases h with h | h
      · exact absurd h hp
      · simp [alookup, hp, ih h]

theorem setCol_alookup (r : Row) (k : String) (v : PyVal) (c : String) :
    alookup (setCol r k v) c = if k = c then some v else alookup r c := by
  unfold setCol
  by_cases hk : k = c
  · subst hk
    by_cases h : r.any (fun p => p.1 = k) = true
    · simp [h, alookup_replace_self r k v h]
    · have hne : k ∉ r.map Prod.fst := by
        intro hmem
        apply h
        rw [List.any_eq_true]
        rcases List.mem_map.mp hmem with ⟨p, hp, hpk⟩
        exact ⟨p, hp, by simp [hpk]⟩
      simp only [h, if_true, if_false, Bool.false_eq_true, ite_false]
      rw [alookup_append, alookup_eq_none r k hne]
      simp [alookup]
  · by_cases h : r.any (fun p => p.1 = k) = true
    · simp [h, alookup_replace_of_ne r k v c hk, hk]
    · simp only [h, Bool.false_eq_true, ite_false, hk]
      rw [alookup_append]
      cases h2 : alookup r c <;> simp [alookup, hk]

theorem overlay_alookup (o : List (String × PyVal)) (r : Row) (c : String) :
    alookup (overlay o r) c =
      match alookupLast o c with
      | some v => some v
      | none => alookup r c := by
  induction o generalizing r with
  | nil => simp [overlay, alookupLast]
  | cons p rest ih =>
    have hcons : overlay (p :: rest) r = overlay rest (setCol r p.1 p.2) := rfl
    rw [hcons, ih, setCol_alookup]
    cases h : alookupLast rest c with
    | some v => simp [alookupLast, h]
    | none =>
      by_cases hp : p.1 = c <;> simp [alookupLast, h, hp]

theorem alookup_map_snd {β γ : Type} (g : String → β → γ)
    (r : List (String × β)) (c : String) :
    alookup (r.map (fun p => (p.1, g p.1 p.2))) c = (alookup r c).map (g c) := by
  induction r with
  | nil => rfl
  | cons p t ih =>
    by_cases h : p.1 = c
    · subst h; simp [alookup]
    · simp [alookup, h, ih]

/-! ### Pointwise characterization of the reconciliation pipeline -/

theorem df2_alookup (S : List String) (d : List (String × String))
    (o : List (String × PyVal)) (c : String) (hc : c ∈ S) :
    alookup (fillDefaults S d (overlay o (initRow S))) c =
      some (pointVal d o c) := by
  have h1 : alookup (initRow S) c = some PyVal.vNaN := by
    rw [initRow, alookup_map_graph]
    simp [List.mem_dedup, hc]
  show alookup ((overlay o (initRow S)).map
    (fun p => (p.1, if p.1 ∈ S ∧ isna p.2 then defaultFor d p.1 else p.2))) c = _
  rw [alookup_map_snd (fun x v => if x ∈ S ∧ isna v then defaultFor d x else v)]
  rw [overlay_alookup]
  cases h : alookupLast o c with
  | none => simp [h1, pointVal, h, hc, isna]
  | some v => simp [pointVal, h, hc]

theorem build_input_row_eq (S : List String) (d : List (String × String))
    (o : List (String × PyVal)) :
    build_input_row S d o =
      S.map (fun c => (c, coerceVal d c (pointVal d o c))) := by
  unfold build_input_row coerceRow reselect
  rw [List.map_map]
  apply List.map_congr_left
  intro c hc
  simp [Function.comp, df2_alookup S d o c hc]

theorem build_input_row_names (S : List String) (d : List (String × String))
    (o : List (String × PyVal)) :
    (build_input_row S d o).map Prod.fst = S := by
  rw [build_input_row_eq]
  simp [Function.comp_def]

theorem result_alookup (S : List String) (d : List (String × String))
    (o : List (String × PyVal)) (c : String) (hc : c ∈ S) :
    alookup (build_input_row S d o) c =
      some (coerceVal d c (pointVal d o c)) := by
  rw [build_input_row_eq, alookup_map_graph]
  simp [hc]

theorem reselectE_ok (f : String → PyVal) (S : List String) (r : Row)
    (h : ∀ c ∈ S, alookup r c = some (f c)) :
    reselectE S r = .ok (S.map (fun c => (c, f c))) := by
  induction S with
  | nil => rfl
  | cons a t ih =>
    have ha : alookup r a = some (f a) := h a (List.mem_cons_self a t)
    have ht : reselectE t r = .ok (t.map (fun c => (c, f c))) :=
      ih (fun c hc => h c (List.mem_cons_of_mem a hc))
    show (match alookup r a, reselectE t r with
      | some v, .ok tl => Except.ok ((a, v) :: tl)
      | none, _ => .error a
      | some _, .error e => .error e) = _
    rw [ha, ht]
    rfl

/-- The pandas reselection `df = df[columns]` never raises in this pipeline:
every schema column is present in the frame by then, so the fallible variant
agrees with the total one.  This is the sense in which `build_input_row`
cannot fail. -/
theorem build_input_rowE_eq_ok (S : List String) (d : List (String × String))
    (o : List (String × PyVal)) :
    build_input_rowE S d o = Except.ok (build_input_row S d o) := by
  have h := df2_alookup S d o
  unfold build_input_rowE build_input_row
  rw [reselectE_ok (pointVal d o) S _ (fun c hc => h c hc)]
  have hres : reselect S (fillDefaults S d (overlay o (initRow S))) =
      S.map (fun c => (c, pointVal d o c)) := by
    unfold reselect
    apply List.map_congr_left
    intro c hc
    simp [h c hc]
  rw [hres]
  rfl

/-! ### Properties of the per-column coercion -/

theorem coerceVal_isna (d : List (String × String)) (c : String) (v : PyVal) :
    isna (coerceVal d c v) = false := by
  unfold coerceVal
  split <;> rfl

theorem coerceVal_idem (d : List (String × String)) (c : String) (v : PyVal) :
    coerceVal d c (coerceVal d c v) = coerceVal d c v := by
  unfold coerceVal
  by_cases h : targetDtype d c = "object" <;> simp [coerceVal, h, pyStr, toNumCoerce]

/-! ### Claim theorems -/

/-- Claim C1: for every schema and every observed input, the record returned
by `build_input_row` has column set exactly equal to the schema's column set
and column order exactly equal to the schema's order (the list of result
column names is the schema list itself). -/
theorem reconciled_columns_eq_schema (S : List String)
    (d : List (String × String)) (o : List (String × PyVal)) :
    (build_input_row S d o).map Prod.fst = S :=
  build_input_row_names S d o

theorem coerceValE_default (d : List (String × String)) (c : String) :
    coerceValE d c (defaultFor d c) =
      Except.ok (coerceVal d c (defaultFor d c)) := by
  by_cases h : targetDtype d c = "object"
  · simp [coerceValE, coerceVal, h]
  · have hno : alookup d c ≠ some "object" := fun hh => h (by
      simp [targetDtype, hh])
    simp [coerceValE, coerceVal, defaultFor, h, hno, toNumCoerce]

theorem coerceEntriesE_ok (d : List (String × String)) (labels : List String)
    (r : Row)
    (h1 : ∀ p ∈ r, ¬(2 ≤ labels.count p.1 ∧ targetDtype d p.1 ≠ "object"))
    (h2 : ∀ p ∈ r, coerceValE d p.1 p.2 = .ok (coerceVal d p.1 p.2)) :
    coerceEntriesE d labels r = .ok (coerceRow d r) := by
  induction r with
  | nil => rfl
  | cons p t ih =>
    have hp1 := h1 p (List.mem_cons_self p t)
    have hp2 := h2 p (List.mem_cons_self p t)
    have ht := ih (fun q hq => h1 q (List.mem_cons_of_mem p hq))
      (fun q hq => h2 q (List.mem_cons_of_mem p hq))
    show (if 2 ≤ labels.count p.1 ∧ targetDtype d p.1 ≠ "object" then _
      else _) = _
    rw [if_neg hp1]
    show (match coerceValE d p.1 p.2, coerceEntriesE d labels t with
      | .ok w, .ok tl => Except.ok ((p.1, w) :: tl)
      | .error e, _ => .error e
      | .ok _, .error e => .error e) = _
    rw [hp2, ht]
    rfl

/-- With a duplicated schema label of numeric dtype, the coercion loop meets
a two-dimensional `df[col]` and the pipeline fails — with a pandas TypeError,
not a schema-specific error. -/
theorem duplicate_numeric_label_coercion_fails :
    build_input_rowPandas ["a", "a"] [("a", "int64")] [] =
      Except.error "TypeError: cannot coerce a two-dimensional selection: a" :=
  rfl

/-- Claim C2, counterexample: the empty schema is malformed in the claim's
sense, yet reconciliation does not fail — even with every pandas error path
modelled, it returns a record (the empty one).  The code has no
SchemaMismatchError at all. -/
theorem empty_schema_reconciles_without_error :
    (([] : List String) = [] ∨ ¬ ([] : List String).Nodup) ∧
    build_input_rowPandas [] [] [] = Except.ok [] :=
  ⟨Or.inl rfl, rfl⟩

/-- Claim C2, amended: reconciliation never fails with a SchemaMismatchError
(the code defines none) and never fails merely because observed values are
missing: over a duplicate-free schema, the run in which every observed value
is missing succeeds outright — every column defaulted — even with all pandas
error paths modelled.  Malformedness does not entail failure (the empty
schema reconciles successfully); a duplicate-name schema can make the
coercion step raise a pandas TypeError, which is neither a
SchemaMismatchError nor a missing-value failure. -/
theorem reconcile_missing_values_defaulted_not_fatal (S : List String)
    (d : List (String × String)) (hS : S.Nodup) :
    build_input_rowPandas S d [] = Except.ok (build_input_row S d []) := by
  have hdf := df2_alookup S d []
  unfold build_input_rowPandas
  rw [reselectE_ok (pointVal d []) S _ (fun c hc => hdf c hc)]
  have hres : reselect S (fillDefaults S d (overlay [] (initRow S))) =
      S.map (fun c => (c, pointVal d [] c)) := by
    unfold reselect
    apply List.map_congr_left
    intro c hc
    simp [hdf c hc]
  show coerceRowE d (S.map (fun c => (c, pointVal d [] c))) = _
  unfold build_input_row
  rw [hres]
  unfold coerceRowE
  have hnames : (S.map (fun c => (c, pointVal d [] c))).map Prod.fst = S := by
    simp [List.map_map, Function.comp_def]
  rw [hnames]
  apply coerceEntriesE_ok
  · intro p hp
    rcases List.mem_map.mp hp with ⟨c, hcS, rfl⟩
    rintro ⟨h2, _⟩
    have h2a : 2 ≤ S.count c := h2
    have h1 := List.nodup_iff_count_le_one.mp hS c
    omega
  · intro p hp
    rcases List.mem_map.mp hp with ⟨c, hcS, rfl⟩
    have hpt : pointVal d [] c = defaultFor d c := by
      simp [pointVal, alookupLast, isna]
    simp only [hpt]
    exact coerceValE_default d c

/-- Claim C2 witness: a duplicate-free schema with nothing observed
reconciles successfully under the fully fallible pipeline. -/
theorem reconcile_missing_values_defaulted_not_fatal_witness :
    build_input_rowPandas ["age", "race"]
        [("age", "object"), ("race", "object")] [] =
      Except.ok (build_input_row ["age", "race"]
        [("age", "object"), ("race", "object")] []) :=
  reconcile_missing_values_defaulted_not_fatal ["age", "race"]
    [("age", "object"), ("race", "object")] (by decide)

/-- Claim C3: every schema column absent from the observed input appears in
the reconciled record, never unset (not NaN); it is the categorical sentinel
(`catDefault`) when its dtype is 'object' and the numeric default 0 when its
dtype is numeric. -/
theorem missing_columns_filled_with_defaults (S : List String)
    (d : List (String × String)) (o : List (String × PyVal)) (c : String)
    (hc : c ∈ S) (ho : c ∉ o.map Prod.fst) :
    (∃ w, alookup (build_input_row S d o) c = some w ∧ isna w = false) ∧
    (alookup d c = some "object" →
      alookup (build_input_row S d o) c = some (PyVal.vStr (catDefault c))) ∧
    (∀ t, alookup d c = some t → t ≠ "object" →
      alookup (build_input_row S d o) c = some (PyVal.vNum 0)) := by
  have hlast : alookupLast o c = none := alookupLast_eq_none o c ho
  have hres := result_alookup S d o c hc
  have hpv : pointVal d o c = defaultFor d c := by
    simp [pointVal, hlast, isna]
  rw [hpv] at hres
  refine ⟨⟨coerceVal d c (defaultFor d c), hres, coerceVal_isna d c _⟩, ?_, ?_⟩
  · intro hobj
    rw [hres]
    simp [coerceVal, targetDtype, hobj, defaultFor, pyStr]
  · intro t ht hne
    rw [hres]
    have hno : alookup d c ≠ some "object" := by
      rw [ht]
      simp [hne]
    simp [coerceVal, targetDtype, ht, defaultFor, hno, toNumCoerce, hne]

/-- Claim C3 witness: with schema [race, x], race categorical, x numeric, and
nothing observed, race is reconciled to the sentinel 'Caucasian'. -/
theorem missing_columns_filled_with_defaults_witness :
    alookup (build_input_row ["race", "x"]
        [("race", "object"), ("x", "int64")] []) "race" =
      some (PyVal.vStr "Caucasian") := by
  have h := missing_columns_filled_with_defaults ["race", "x"]
    [("race", "object"), ("x", "int64")] [] "race"
    (List.mem_cons_self "race" ["x"]) (by simp)
  exact h.2.1 rfl

/-- Claim C4: if the last observed write to a numeric schema column is a
string that does not coerce to a number, the reconciled value for that column
is the numeric default 0, and the reconciliation as a whole still succeeds
(no exception escapes). -/
theorem numeric_garbage_coerced_to_zero (S : List String)
    (d : List (String × String)) (o : List (String × PyVal)) (c s t : String)
    (hc : c ∈ S) (hv : alookupLast o c = some (PyVal.vStr s))
    (hp : parseNum s = none) (ht : alookup d c = some t)
    (hne : t ≠ "object") :
    alookup (build_input_row S d o) c = some (PyVal.vNum 0) ∧
    build_input_rowE S d o = Except.ok (build_input_row S d o) := by
  constructor
  · have hres := result_alookup S d o c hc
    have hpv : pointVal d o c = PyVal.vStr s := by
      simp [pointVal, hv, isna]
    rw [hpv] at hres
    rw [hres]
    have hobj : targetDtype d c ≠ "object" := by
      simp [targetDtype, ht, hne]
    simp [coerceVal, hobj, toNumCoerce, hp]
  · exact build_input_rowE_eq_ok S d o

/-- Claim C4 witness: `num_medications: "not-a-number"` reconciles to 0. -/
theorem numeric_garbage_coerced_to_zero_witness :
    alookup (build_input_row ["num_medications"]
        [("num_medications", "int64")]
        [("num_medications", PyVal.vStr "not-a-number")])
      "num_medications" = some (PyVal.vNum 0) :=
  (numeric_garbage_coerced_to_zero ["num_medications"]
    [("num_medications", "int64")]
    [("num_medications", PyVal.vStr "not-a-number")] "num_medications"
    "not-a-number" "int64" (List.mem_cons_self "num_medications" [])
    rfl rfl rfl (by decide)).1

/-- Claim C5: an observed key whose name does not appear in the schema is
ignored — the reconciled record has no column of that name. -/
theorem extra_observed_keys_dropped (S : List String)
    (d : List (String × String)) (o : List (String × PyVal)) (c : String)
    (hc : c ∉ S) :
    alookup (build_input_row S d o) c = none := by
  apply alookup_eq_none
  rw [build_input_row_names]
  exact hc

/-- Claim C5 witness: an extra `unused_field` key leaves no column behind. -/
theorem extra_observed_keys_dropped_witness :
    alookup (build_input_row ["age"] [("age", "object")]
        [("age", PyVal.vStr "[50-60)"), ("unused_field", PyVal.vStr "x")])
      "unused_field" = none :=
  extra_observed_keys_dropped ["age"] [("age", "object")]
    [("age", PyVal.vStr "[50-60)"), ("unused_field", PyVal.vStr "x")]
    "unused_field" (by simp)

theorem pointVal_graph (d : List (String × String)) (S : List String)
    (f : String → PyVal) (hf : ∀ x, isna (f x) = false) (c : String)
    (hc : c ∈ S) :
    pointVal d (S.map (fun x => (x, f x))) c = f c := by
  unfold pointVal
  rw [alookupLast_map_graph]
  simp [hc, hf c]

/-- Claim C6: reconciliation is idempotent — feeding the reconciled record
back in as the observed input, against the same schema and dtypes, returns
the identical record. -/
theorem reconcile_idempotent (S : List String) (d : List (String × String))
    (o : List (String × PyVal)) :
    build_input_row S d (build_input_row S d o) = build_input_row S d o := by
  rw [build_input_row_eq S d o, build_input_row_eq S d]
  apply List.map_congr_left
  intro c hc
  have hpv := pointVal_graph d S (fun x => coerceVal d x (pointVal d o x))
    (fun x => coerceVal_isna d x (pointVal d o x)) c hc
  simp only [hpv, coerceVal_idem]

/-- Claim C7: if any of the three artifact loads fails, startup halts (the
`st.stop()` branch) and no prediction — hence no reconciliation — can occur;
the failure is a startup condition, not a per-request result. -/
theorem artifact_load_failure_halts (m : Except String Unit)
    (cols : Except String (List String))
    (dts : Except String (List (String × String)))
    (o : List (String × PyVal))
    (h : (∃ e, m = .error e) ∨ (∃ e, cols = .error e) ∨ (∃ e, dts = .error e)) :
    (∃ msg, load_artifacts m cols dts = .halted msg) ∧
    app_predict (load_artifacts m cols dts) o = none := by
  rcases h with ⟨e, he⟩ | ⟨e, he⟩ | ⟨e, he⟩
  · subst he
    exact ⟨⟨e, rfl⟩, rfl⟩
  · cases m with
    | error e₂ => exact ⟨⟨e₂, rfl⟩, rfl⟩
    | ok u =>
      subst he
      exact ⟨⟨e, rfl⟩, rfl⟩
  · cases m with
    | error e₂ => exact ⟨⟨e₂, rfl⟩, rfl⟩
    | ok u =>
      cases cols with
      | error e₂ => exact ⟨⟨e₂, rfl⟩, rfl⟩
      | ok cs =>
        subst he
        exact ⟨⟨e, rfl⟩, rfl⟩

/-- Claim C7 witness: a missing model file halts startup and yields no
prediction. -/
theorem artifact_load_failure_halts_witness :
    app_predict (load_artifacts (Except.error "readmission_model.pkl not found")
      (Except.ok ["age"]) (Except.ok [("age", "object")])) [] = none :=
  (artifact_load_failure_halts
    (Except.error "readmission_model.pkl not found") (Except.ok ["age"])
    (Except.ok [("age", "object")]) []
    (Or.inl ⟨"readmission_model.pkl not found", rfl⟩)).2

/-- Claim C8: a schema column missing from the dtypes mapping is treated as
categorical by the coercion step (`dtypes.get(col, 'object')`): its
reconciled value is a string, not a number. -/
theorem unknown_dtype_treated_as_categorical (S : List String)
    (d : List (String × String)) (o : List (String × PyVal)) (c : String)
    (hc : c ∈ S) (hd : alookup d c = none) :
    ∃ s, alookup (build_input_row S d o) c = some (PyVal.vStr s) := by
  have hres := result_alookup S d o c hc
  refine ⟨pyStr (pointVal d o c), ?_⟩
  rw [hres]
  have hobj : targetDtype d c = "object" := by
    simp [targetDtype, hd]
  simp [coerceVal, hobj]

/-- Claim C8 witness: a column absent from the dtypes mapping reconciles to
a string value. -/
theorem unknown_dtype_treated_as_categorical_witness :
    ∃ s, alookup (build_input_row ["x"] [] []) "x" = some (PyVal.vStr s) :=
  unknown_dtype_treated_as_categorical ["x"] [] [] "x"
    (List.mem_cons_self "x" []) rfl

/-- Claim C9: the training label construction keeps exactly the rows whose
readmitted value differs from "NO", and labels a kept row 1 exactly when its
readmitted value is "<30", 0 otherwise. -/
theorem training_label_construction (β : Type) (rows : List (String × β))
    (r : String × β) (n : Nat) :
    ((r, n) ∈ label_rows rows ↔
      (r ∈ rows ∧ r.1 ≠ "NO" ∧ n = readmitted_flag r.1)) ∧
    (readmitted_flag r.1 = 1 ↔ r.1 = "<30") ∧
    (readmitted_flag r.1 = 0 ↔ r.1 ≠ "<30") := by
  refine ⟨?_, ?_, ?_⟩
  · simp only [label_rows, keep_rows, List.mem_map, List.mem_filter,
      bne_iff_ne, ne_eq, Prod.mk.injEq]
    constructor
    · rintro ⟨x, ⟨hx, hpred⟩, hxr, hflag⟩
      subst hxr
      exact ⟨hx, hpred, hflag.symm⟩
    · rintro ⟨hx, hpred, hflag⟩
      exact ⟨r, ⟨hx, hpred⟩, rfl, hflag.symm⟩
  · by_cases h : r.1 = "<30" <;> simp [readmitted_flag, h]
  · by_cases h : r.1 = "<30" <;> simp [readmitted_flag, h]

/-- Claim C10: reconciliation is deterministic — it is a pure function of the
schema, the column-to-kind mapping (up to lookup equivalence) and the
observed values; two runs with the same inputs return identical records. -/
theorem reconcile_deterministic (S : List String)
    (d₁ d₂ : List (String × String)) (o : List (String × PyVal))
    (h : ∀ c, alookup d₁ c = alookup d₂ c) :
    build_input_row S d₁ o = build_input_row S d₂ o := by
  rw [build_input_row_eq, build_input_row_eq]
  apply List.map_congr_left
  intro c hc
  have hd : defaultFor d₁ c = defaultFor d₂ c := by
    simp [defaultFor, h c]
  have htg : targetDtype d₁ c = targetDtype d₂ c := by
    simp [targetDtype, h c]
  have hpv : pointVal d₁ o c = pointVal d₂ o c := by
    simp [pointVal, hd]
  rw [hpv]
  simp [coerceVal, htg]

/-- Claim C10 witness: two syntactically different but lookup-equivalent
dtype mappings give identical reconciled records. -/
theorem reconcile_deterministic_witness :
    build_input_row ["age"] [("age", "object")] [] =
      build_input_row ["age"] [("age", "object"), ("age", "int64")] [] :=
  reconcile_deterministic ["age"] [("age", "object")]
    [("age", "object"), ("age", "int64")] []
    (by
      intro c
      by_cases h : "age" = c <;> simp [alookup, h])
